import Mathlib

/-!
Verification of the simulation step/state-synchronization engine of the
bitcoin-abm-v2 frontend: the snapshot merge logic of `updateFromState`, the
continuous run driver (`run`/`stop`/unmount cleanup/`reset`), the fallback
request/response intent path, the history aggregator of the analysis tab,
and the scenario hypothesis banner. Each definition is a shallow embedding
of the corresponding JavaScript in `frontend/src/hooks/useSimulation.js`,
`frontend/src/components/AnalysisTab.jsx` and `App.jsx`.
-/

namespace BitcoinABM

/-! ## Synchronization session: snapshots and `updateFromState`

A server snapshot is a JS object that may carry a `step` field, a `metrics`
object and an `activity` object.  `Option` models an absent (undefined/null)
field; a metrics/activity object is a partial map from string keys to numeric
values (values are opaque to the merge logic, modelled as `Int`). -/

/-- A server snapshot as received by the `state_update` handler or the REST
fallback: optional `step`, optional `metrics` object, optional `activity`
object (each object a partial map from keys to values). -/
structure Snapshot where
  step : Option Nat
  metrics : Option (String → Option Int)
  activity : Option (String → Option Int)

/-- The UI-visible simulation state kept by the hook: the displayed `step`
(from `simState`) and the fully-populated metrics record. -/
structure UIState where
  step : Nat
  metrics : String → Int

/-- Embedding of `updateFromState` (useSimulation.js, lines 35-50):
`if (!state) return` guards a null state; `step: state.step ?? prev.step`
replaces the step when present; `if (state.metrics)` gates the metric merge,
which spreads `...prev, ...state.metrics, ...(state.activity || {})` so that
activity keys override metrics keys, which override the prior record. -/
def updateFromState (state : Option Snapshot) (ui : UIState) : UIState :=
  match state with
  | none => ui
  | some s =>
      let newStep := s.step.getD ui.step
      let newMetrics : String → Int :=
        match s.metrics with
        | none => ui.metrics
        | some m =>
            let act := s.activity.getD (fun _ => none)
            fun k =>
              match act k with
              | some v => v
              | none =>
                  match m k with
                  | some v => v
                  | none => ui.metrics k
      { step := newStep, metrics := newMetrics }

/-- The UI states displayed after each snapshot of a delivered sequence,
in delivery order (each snapshot applied by `updateFromState` to the state
left by the previous one). -/
def displayedStates (ui : UIState) : List Snapshot → List UIState
  | [] => []
  | s :: rest =>
      let ui' := updateFromState (some s) ui
      ui' :: displayedStates ui' rest

/-- The displayed `step` sequence for a delivered snapshot sequence. -/
def displayedSteps (ui : UIState) (snaps : List Snapshot) : List Nat :=
  (displayedStates ui snaps).map (·.step)

/-- A snapshot carrying only a `step` field. -/
def stepOnlySnap (n : Nat) : Snapshot :=
  { step := some n, metrics := none, activity := none }

/-- The initial UI state of the hook: step 0 (the concrete initial metric
values are irrelevant to the merge logic; zero stands in for them). -/
def initialUI : UIState :=
  { step := 0, metrics := fun _ => 0 }

/-! ## Fallback request/response intent path

`step` (lines 90-105) and `reset` (lines 119-137) share the same fallback
shape when the socket is disconnected: `fetch` the endpoint, parse the
envelope, apply `data.state` via `updateFromState` only when
`data.status === 'ok'`, and `setError(err.message)` only in the `catch`
branch.  `FetchOutcome` models the two ways the awaited call can end. -/

/-- Outcome of the awaited fallback call: either the fetch/json chain threw
(with an error message), or it produced an envelope with a `status` string
and an optional `state` snapshot. -/
inductive FetchOutcome where
  | threw (msg : String)
  | responded (status : String) (state : Option Snapshot)

/-- Embedding of the shared fallback branch of `step`/`reset`: given the
call's outcome, the prior UI state and the prior error slot, return the new
UI state and error slot.  On `status === 'ok'` the snapshot is applied; on
any other status nothing happens; on a thrown error only the error slot is
set. -/
def fallbackIntent (out : FetchOutcome) (ui : UIState) (err : Option String) :
    UIState × Option String :=
  match out with
  | .threw msg => (ui, some msg)
  | .responded status st =>
      if status = "ok" then (updateFromState st ui, err) else (ui, err)

/-! ## Continuous run driver

`run` (lines 140-152), `stop` (lines 155-163), the unmount cleanup effect
(lines 166-172) and the stop-if-running prologue of `reset` (lines 108-117)
manipulate three refs: `runningRef`, the `running` flag mirrored into
`simState`, and `intervalRef` holding the `setInterval` handle.  The world
also tracks the set of live timers the browser owns (`activeTimers`) and a
fresh-id counter, so that timer creation, cancellation and leakage are
observable. -/

/-- Driver world: the hook's refs plus the browser's live interval timers. -/
structure DriverWorld where
  runningRef : Bool
  runningUI : Bool
  intervalRef : Option Nat
  activeTimers : List Nat
  nextId : Nat
deriving DecidableEq, Repr

/-- `clearInterval(intervalRef.current); intervalRef.current = null` guarded
by `if (intervalRef.current)`: cancels the held timer and nulls the ref. -/
def clearHeldInterval (w : DriverWorld) : DriverWorld :=
  match w.intervalRef with
  | some i =>
      { w with intervalRef := none, activeTimers := w.activeTimers.erase i }
  | none => w

/-- Embedding of `run`: `if (runningRef.current) return` makes a second call
a no-op; otherwise set both running flags and store a fresh `setInterval`
handle in `intervalRef`. -/
def run (w : DriverWorld) : DriverWorld :=
  if w.runningRef then w
  else
    { runningRef := true
      runningUI := true
      intervalRef := some w.nextId
      activeTimers := w.activeTimers ++ [w.nextId]
      nextId := w.nextId + 1 }

/-- Embedding of `stop`: clear both running flags unconditionally, then
cancel and null the held interval if present. -/
def stop (w : DriverWorld) : DriverWorld :=
  clearHeldInterval { w with runningRef := false, runningUI := false }

/-- Embedding of the unmount cleanup effect: `if (intervalRef.current)
clearInterval(intervalRef.current)` — cancels the held timer (the ref itself
is not nulled; the component is gone). -/
def unmountCleanup (w : DriverWorld) : DriverWorld :=
  match w.intervalRef with
  | some i => { w with activeTimers := w.activeTimers.erase i }
  | none => w

/-- Embedding of the driver prologue of `reset` (lines 108-117): only when
`runningRef.current` is set, clear both running flags and cancel the held
interval; afterwards the reset intent is issued.  When the driver is already
stopped this branch does not execute. -/
def resetDriver (w : DriverWorld) : DriverWorld :=
  if w.runningRef then
    clearHeldInterval { w with runningRef := false, runningUI := false }
  else w

/-- Step intents issued during one cadence interval: every live timer fires
once, and each fired callback issues a `step()` iff `runningRef.current` is
still set (`if (runningRef.current) step()`, line 148). -/
def stepsPerInterval (w : DriverWorld) : Nat :=
  if w.runningRef then w.activeTimers.length else 0

/-- Invariant of every driver state the hook can reach: the live timers are
exactly the one held in `intervalRef` (the hook never leaks a second timer),
and `runningRef` is set exactly when an interval handle is held. -/
def DriverInv (w : DriverWorld) : Prop :=
  w.activeTimers = w.intervalRef.toList ∧ w.runningRef = w.intervalRef.isSome

instance (w : DriverWorld) : Decidable (DriverInv w) := by
  unfold DriverInv; infer_instance

/-- The driver world at mount: not running, no interval, no live timer. -/
def initialDriver : DriverWorld :=
  { runningRef := false, runningUI := false, intervalRef := none
    activeTimers := [], nextId := 0 }

/-! ## History aggregator (AnalysisTab)

`AnalysisTab` keeps a `history` list fed by two effects keyed on
`simState.step`: when `step > 0` it appends an entry projected from the
current metrics and truncates to the last `MAX_HISTORY` entries
(lines 341-361); when `step === 0` it clears the list (lines 364-368).
Numeric metric values are modelled as rationals. -/

/-- `MAX_HISTORY` (AnalysisTab.jsx line 19). -/
def MAX_HISTORY : Nat := 100

/-- The `{step, metrics...}` pair the aggregator observes on each update:
`simState.step` plus the tracked metric subset. -/
structure ObservedState where
  step : Nat
  mempool_size : ℚ
  avg_fee : ℚ
  blocks_mined : ℚ
  hashrate : ℚ
  difficulty : ℚ
deriving DecidableEq, Repr

/-- A stored history entry (the `newEntry` object of lines 344-351). -/
structure HistoryEntry where
  step : Nat
  mempool : ℚ
  fee : ℚ
  blocks : ℚ
  hashrate : ℚ
  difficulty : ℚ
deriving DecidableEq, Repr

/-- Projection of an observed state into a `HistoryEntry`. -/
def entryOf (s : ObservedState) : HistoryEntry :=
  { step := s.step, mempool := s.mempool_size, fee := s.avg_fee
    blocks := s.blocks_mined, hashrate := s.hashrate
    difficulty := s.difficulty }

/-- One observation of the aggregator: the clear effect fires when
`step === 0`; otherwise the append effect pushes `entryOf s` and, when the
length exceeds `MAX_HISTORY`, keeps only the last `MAX_HISTORY` entries
(`updated.slice(-MAX_HISTORY)`). -/
def observe (hist : List HistoryEntry) (s : ObservedState) : List HistoryEntry :=
  if s.step = 0 then []
  else
    let updated := hist ++ [entryOf s]
    if MAX_HISTORY < updated.length then
      updated.drop (updated.length - MAX_HISTORY)
    else updated

/-- The last `n` elements of a list. -/
def lastN (n : Nat) (l : List α) : List α :=
  l.drop (l.length - n)

/-- `derive`: project the window to a single metric's values, oldest first
(the `history.map(h => h.metric)` lines 371-375). -/
def derive (hist : List HistoryEntry) (f : HistoryEntry → ℚ) : List ℚ :=
  hist.map f

/-- What `MiniChart` renders: the no-data placeholder when the series is
empty (`if (!data || data.length === 0)`, lines 46-59), otherwise the chart
with its current value `data[data.length - 1]`. -/
inductive ChartRender where
  | noData
  | chart (data : List ℚ) (currentVal : ℚ)
deriving DecidableEq, Repr

/-- Embedding of `MiniChart`'s branch on its data series. -/
def miniChart (data : List ℚ) : ChartRender :=
  if data.isEmpty then .noData
  else .chart data (data.getLastD 0)

/-- The trend values computed by `StatsSummary` from a non-empty window. -/
structure TrendSummary where
  mempoolTrend : ℚ
  feeTrend : ℚ
  hashrateTrend : ℚ
  dataPoints : Nat
deriving DecidableEq, Repr

/-- Embedding of `StatsSummary` (lines 277-289): renders nothing (`null`)
on an empty window; otherwise computes last-minus-first deltas and the
hashrate percent change from `history[0]` and `history[length-1]`. -/
def statsSummary (hist : List HistoryEntry) : Option TrendSummary :=
  if hist.isEmpty then none
  else
    let latest := hist.getLastD (entryOf { step := 0, mempool_size := 0, avg_fee := 0, blocks_mined := 0, hashrate := 0, difficulty := 0 })
    let first := hist.headD (entryOf { step := 0, mempool_size := 0, avg_fee := 0, blocks_mined := 0, hashrate := 0, difficulty := 0 })
    some { mempoolTrend := latest.mempool - first.mempool
           feeTrend := latest.fee - first.fee
           hashrateTrend := (latest.hashrate - first.hashrate) / first.hashrate * 100
           dataPoints := hist.length }

/-! ## Scenario hypothesis banner (App.jsx)

The banner is the JSX conditional
`currentScenario.id !== 'baseline' && currentScenario.hypothesis && (...)`
whose body surfaces `currentScenario.hypothesis` (lines 1216-1230). -/

/-- A scenario descriptor as the App consumes it; `hypothesis` is nullable
descriptive text. -/
structure Scenario where
  id : String
  name : String
  hypothesis : Option String
deriving DecidableEq, Repr

/-- JS truthiness of the nullable `hypothesis` string: null/undefined and
the empty string are falsy. -/
def hypTruthy : Option String → Bool
  | none => false
  | some s => !s.isEmpty

/-- Embedding of the banner conditional: `some text` when the banner is
rendered (with the surfaced text), `none` when it is not. -/
def hypothesisBanner (sc : Scenario) : Option String :=
  if sc.id ≠ "baseline" ∧ hypTruthy sc.hypothesis then sc.hypothesis
  else none

/-! ## Theorems -/

/-- C7: for every history window state, observing a snapshot whose step is 0
clears the window to empty, including when the window was non-empty. -/
theorem observe_zero_clears (hist : List HistoryEntry) (s : ObservedState)
    (h : s.step = 0) : observe hist s = [] := by
  simp [observe, h]

/-- Witness for C7: a concrete non-empty window cleared by a step-0
observation. -/
theorem observe_zero_clears_witness :
    observe [entryOf { step := 3, mempool_size := 10, avg_fee := 2,
                       blocks_mined := 1, hashrate := 100, difficulty := 1 }]
      { step := 0, mempool_size := 0, avg_fee := 1, blocks_mined := 0,
        hashrate := 100, difficulty := 1 } = [] :=
  observe_zero_clears _ _ rfl

/-- C8: on an empty window, deriving any metric series yields the empty
sequence, the chart renders the no-data placeholder, and the trend summary
renders nothing — no trend arithmetic (in particular no division) is
performed. -/
theorem empty_window_no_data (f : HistoryEntry → ℚ) :
    derive [] f = [] ∧ miniChart (derive [] f) = ChartRender.noData ∧
    statsSummary [] = none :=
  ⟨rfl, rfl, rfl⟩

/-- C9: the hypothesis banner is rendered exactly when the active scenario's
id is not `baseline` and its hypothesis text is present and non-empty, in
which case the surfaced text is exactly that scenario's hypothesis; the
`baseline` scenario never surfaces hypothesis text. -/
theorem hypothesisBanner_policy (sc : Scenario) :
    ((hypothesisBanner sc).isSome ↔
        sc.id ≠ "baseline" ∧ ∃ t, sc.hypothesis = some t ∧ t ≠ "") ∧
    (∀ t, hypothesisBanner sc = some t → sc.hypothesis = some t) ∧
    (sc.id = "baseline" → hypothesisBanner sc = none) := by
  obtain ⟨i, n, hyp⟩ := sc
  refine ⟨?_, ?_, ?_⟩
  · cases hyp with
    | none => simp [hypothesisBanner, hypTruthy]
    | some t =>
        by_cases ht : t = ""
        · subst ht
          simp [hypothesisBanner, hypTruthy]
          intro _
          rfl
        · have hte : t.isEmpty = false := by
            rw [← Bool.not_eq_true, String.isEmpty_iff]; exact ht
          by_cases hid : i = "baseline" <;>
            simp [hypothesisBanner, hypTruthy, hid, hte, ht]
  · intro t h
    unfold hypothesisBanner at h
    split at h
    · exact h
    · exact absurd h (by simp)
  · intro h
    have hi : i = "baseline" := h
    simp [hypothesisBanner, hi]

/-- Witness for C9: the baseline scenario surfaces no banner even with a
hypothesis set, and a rendered banner's text is the scenario's hypothesis. -/
theorem hypothesisBanner_policy_witness :
    hypothesisBanner { id := "baseline", name := "Baseline",
                       hypothesis := some ("unused") } = none ∧
    (Scenario.mk ("fee_spike") ("Fee Spike")
        (some ("Fees rise"))).hypothesis = some ("Fees rise") :=
  ⟨(hypothesisBanner_policy _).2.2 rfl,
   (hypothesisBanner_policy _).2.1 ("Fees rise") (by decide)⟩

/-- C1 counterexample: `updateFromState` has no monotonic-step guard, so
delivering snapshots with steps 5, 3, 6 yields the displayed step sequence
[5, 3, 6] — the stale step 3 is applied and regresses the display — not the
claimed [5, 6]. -/
theorem stale_snapshot_applied_cex :
    displayedSteps initialUI
        [stepOnlySnap 5, stepOnlySnap 3, stepOnlySnap 6] = [5, 3, 6] ∧
    displayedSteps initialUI
        [stepOnlySnap 5, stepOnlySnap 3, stepOnlySnap 6] ≠ [5, 6] :=
  ⟨rfl, by decide⟩

/-- C1 amended: `updateFromState` applies every delivered snapshot's step
unconditionally — the displayed step sequence equals the delivered step
sequence, so a snapshot with a lower step than the displayed one is not
discarded and does regress the displayed state. -/
theorem displayedSteps_follow_delivery (ui : UIState) (ns : List Nat) :
    displayedSteps ui (ns.map stepOnlySnap) = ns := by
  induction ns generalizing ui with
  | nil => rfl
  | cons n rest ih =>
      show (updateFromState (some (stepOnlySnap n)) ui).step ::
          displayedSteps (updateFromState (some (stepOnlySnap n)) ui)
            (rest.map stepOnlySnap) = n :: rest
      rw [ih]
      rfl

/-- A sample metrics object carrying only the `hashrate` key. -/
def sampleMetricsObj : String → Option Int :=
  fun k => if k = "hashrate" then some 7 else none

/-- A sample activity object carrying only the `mempool_size` key. -/
def sampleActivityObj : String → Option Int :=
  fun k => if k = "mempool_size" then some 9 else none

/-- A sample snapshot whose metrics object lacks `mempool_size` but whose
activity object carries it. -/
def sampleSnap : Snapshot :=
  { step := some 1, metrics := some sampleMetricsObj
    activity := some sampleActivityObj }

/-- C2 counterexample: the merge does not replace exactly the keys of the
snapshot's `metrics` bundle — `updateFromState` also spreads the snapshot's
`activity` object into the metric record, so the key `mempool_size`, absent
from the metrics bundle, still changes from its prior value 0 to 9. -/
theorem merge_touches_activity_key_cex :
    sampleMetricsObj ("mempool_size") = none ∧
    initialUI.metrics ("mempool_size") = 0 ∧
    (updateFromState (some sampleSnap) initialUI).metrics ("mempool_size") = 9 :=
  ⟨by decide, rfl, by decide⟩

/-- C2 amended: `updateFromState` sets the displayed step to the snapshot's
step when present and keeps the prior step when absent; metric changes are
gated on the presence of the snapshot's `metrics` object (when it is absent,
every metric — and the whole state record except the step — is unchanged,
even if an `activity` object is present); when `metrics` is present, each
key takes its value from the `activity` object if present there, otherwise
from the `metrics` object if present there, and otherwise retains its prior
value. -/
theorem updateFromState_merge_rule (s : Snapshot) (ui : UIState) :
    ((updateFromState (some s) ui).step = s.step.getD ui.step) ∧
    (s.metrics = none →
      updateFromState (some s) ui = { ui with step := s.step.getD ui.step }) ∧
    (∀ m, s.metrics = some m →
      (∀ k v, s.activity.getD (fun _ => none) k = some v →
        (updateFromState (some s) ui).metrics k = v) ∧
      (∀ k v, s.activity.getD (fun _ => none) k = none → m k = some v →
        (updateFromState (some s) ui).metrics k = v) ∧
      (∀ k, s.activity.getD (fun _ => none) k = none → m k = none →
        (updateFromState (some s) ui).metrics k = ui.metrics k)) := by
  obtain ⟨st, mo, ao⟩ := s
  refine ⟨rfl, ?_, ?_⟩
  · intro hm
    subst hm
    rfl
  · intro m hm
    subst hm
    refine ⟨?_, ?_, ?_⟩
    · intro k v ha
      simp [updateFromState, ha]
    · intro k v ha hmk
      simp [updateFromState, ha, hmk]
    · intro k ha hmk
      simp [updateFromState, ha, hmk]

/-- Witness for C2's amended rule at the sample snapshot: the activity key
overrides, the metrics key applies, and an untouched key retains its prior
value. -/
theorem updateFromState_merge_rule_witness :
    (updateFromState (some sampleSnap) initialUI).metrics ("mempool_size") = 9 ∧
    (updateFromState (some sampleSnap) initialUI).metrics ("hashrate") = 7 ∧
    (updateFromState (some sampleSnap) initialUI).metrics ("avg_fee") =
      initialUI.metrics ("avg_fee") :=
  ⟨((updateFromState_merge_rule sampleSnap initialUI).2.2 sampleMetricsObj
      rfl).1 ("mempool_size") 9 (by decide),
   ((updateFromState_merge_rule sampleSnap initialUI).2.2 sampleMetricsObj
      rfl).2.1 ("hashrate") 7 (by decide) (by decide),
   ((updateFromState_merge_rule sampleSnap initialUI).2.2 sampleMetricsObj
      rfl).2.2 ("avg_fee") (by decide) (by decide)⟩

/-- C6 counterexample: a fallback response whose envelope status is not
`"ok"` leaves the UI state unchanged but sets no user-visible error message
— the code silently ignores a non-ok envelope (only a thrown call reaches
`setError`), contradicting the claim that an error message is set. -/
theorem fallback_error_status_silent_cex :
    fallbackIntent (.responded ("error") none) initialUI none =
      (initialUI, none) :=
  rfl

/-- C6 amended: on the fallback path, the snapshot is applied only when the
envelope status is `"ok"`; a non-ok status leaves both the UI state and the
error slot unchanged (silently ignored, no message is set); a thrown call
leaves the UI state unchanged and sets the error message. -/
theorem fallbackIntent_confirmed_only (out : FetchOutcome) (ui : UIState)
    (err : Option String) :
    (∀ msg, out = .threw msg → fallbackIntent out ui err = (ui, some msg)) ∧
    (∀ status st, out = .responded status st → status ≠ "ok" →
      fallbackIntent out ui err = (ui, err)) ∧
    (∀ st, out = .responded ("ok") st →
      fallbackIntent out ui err = (updateFromState st ui, err)) := by
  refine ⟨?_, ?_, ?_⟩
  · intro msg h
    subst h
    rfl
  · intro status st h hs
    subst h
    simp [fallbackIntent, hs]
  · intro st h
    subst h
    rfl

/-- Witness for C6's amended rule: a thrown call sets the message and keeps
the state; a rejected envelope changes nothing; an ok envelope applies the
snapshot. -/
theorem fallbackIntent_confirmed_only_witness :
    fallbackIntent (.threw ("fetch failed")) initialUI none =
      (initialUI, some ("fetch failed")) ∧
    fallbackIntent (.responded ("error") none) initialUI (some ("old")) =
      (initialUI, some ("old")) ∧
    fallbackIntent (.responded ("ok") (some sampleSnap)) initialUI none =
      (updateFromState (some sampleSnap) initialUI, none) :=
  ⟨(fallbackIntent_confirmed_only _ initialUI none).1 ("fetch failed") rfl,
   (fallbackIntent_confirmed_only _ initialUI (some ("old"))).2.1
      ("error") none rfl (by decide),
   (fallbackIntent_confirmed_only _ initialUI none).2.2
      (some sampleSnap) rfl⟩

/-- C4: `run` is idempotent — calling it while `runningRef` is already set
returns immediately and changes nothing (in particular it creates no second
timer), and from a stopped reachable state a double `run` leaves exactly one
live timer, so exactly one step intent is issued per cadence interval. -/
theorem run_idempotent (w : DriverWorld) :
    run (run w) = run w ∧
    (w.runningRef = true → run w = w) ∧
    (DriverInv w → w.runningRef = false →
      (run (run w)).activeTimers.length = 1 ∧
      stepsPerInterval (run (run w)) = 1) := by
  have hrr : (run w).runningRef = true := by
    by_cases h : w.runningRef <;> simp [run, h]
  have hrun2 : run (run w) = run w := by
    rw [run, if_pos hrr]
  refine ⟨hrun2, ?_, ?_⟩
  · intro h
    simp [run, h]
  · intro hinv hstop
    obtain ⟨htimers, hflag⟩ := hinv
    have hiv : w.intervalRef = none := by
      cases h : w.intervalRef with
      | none => rfl
      | some i => rw [h] at hflag; simp [hstop] at hflag
    have hat : w.activeTimers = [] := by
      rw [htimers, hiv]; rfl
    rw [hrun2, run, if_neg (by simp [hstop])]
    simp [stepsPerInterval, hat]

/-- Witness for C4: from the mount state, two `run` calls leave one live
timer and one step intent per interval. -/
theorem run_idempotent_witness :
    (run (run initialDriver)).activeTimers.length = 1 ∧
    stepsPerInterval (run (run initialDriver)) = 1 :=
  (run_idempotent initialDriver).2.2 (by decide) rfl

/-- C5: `stop` clears the running flags, cancels and nulls the held interval
timer, and is idempotent; after `stop` no cadence fire issues a step intent
(every timer callback re-checks `runningRef`); on a reachable state `stop`
leaves no live timer, and the unmount cleanup also cancels the held timer so
no timer outlives its owner — after cleanup no step intent is ever issued. -/
theorem stop_cancels_timer (w : DriverWorld) :
    stepsPerInterval (stop w) = 0 ∧
    (stop w).runningRef = false ∧
    (stop w).intervalRef = none ∧
    stop (stop w) = stop w ∧
    (DriverInv w →
      (stop w).activeTimers = [] ∧
      (unmountCleanup w).activeTimers = [] ∧
      stepsPerInterval (unmountCleanup w) = 0) := by
  have hrf : (stop w).runningRef = false := by
    cases h : w.intervalRef <;> simp [stop, clearHeldInterval, h]
  have hui : (stop w).runningUI = false := by
    cases h : w.intervalRef <;> simp [stop, clearHeldInterval, h]
  have hiv : (stop w).intervalRef = none := by
    cases h : w.intervalRef <;> simp [stop, clearHeldInterval, h]
  have hclear : clearHeldInterval (stop w) = stop w := by
    unfold clearHeldInterval
    rw [hiv]
  have hstop2 : stop (stop w) = stop w := by
    cases hsw : stop w with
    | mk a b c d e =>
        rw [hsw] at hrf hui hiv
        simp only at hrf hui hiv
        subst hrf
        subst hui
        subst hiv
        simp [stop, clearHeldInterval]
  refine ⟨by simp [stepsPerInterval, hrf], hrf, hiv, hstop2, ?_⟩
  intro ⟨htimers, hflag⟩
  cases h : w.intervalRef with
  | none =>
      rw [h] at htimers
      simp [stop, clearHeldInterval, unmountCleanup, h, htimers,
        stepsPerInterval]
  | some i =>
      rw [h] at htimers
      simp [stop, clearHeldInterval, unmountCleanup, h, htimers,
        stepsPerInterval]

/-- Witness for C5: stopping (or unmounting) a running reachable state
leaves no live timer and no step intents. -/
theorem stop_cancels_timer_witness :
    (stop (run initialDriver)).activeTimers = [] ∧
    stepsPerInterval (unmountCleanup (run initialDriver)) = 0 :=
  ⟨((stop_cancels_timer (run initialDriver)).2.2.2.2 (by decide)).1,
   ((stop_cancels_timer (run initialDriver)).2.2.2.2 (by decide)).2.2⟩

/-- C10: `reset` first runs its stop-if-running prologue, so after it the
driver is stopped and no cadence-driven step intent fires; on a reachable
state the pending interval timer is cancelled and the interval handle
cleared; when the driver is already stopped the prologue leaves the driver
state untouched. -/
theorem reset_stops_driver (w : DriverWorld) :
    (resetDriver w).runningRef = false ∧
    stepsPerInterval (resetDriver w) = 0 ∧
    (w.runningRef = false → resetDriver w = w) ∧
    (DriverInv w →
      (resetDriver w).activeTimers = [] ∧ (resetDriver w).intervalRef = none) := by
  have hrf : (resetDriver w).runningRef = false := by
    by_cases h : w.runningRef
    · cases hi : w.intervalRef <;>
        simp [resetDriver, clearHeldInterval, h, hi]
    · rw [resetDriver, if_neg h]
      simpa using h
  refine ⟨hrf, by simp [stepsPerInterval, hrf], ?_, ?_⟩
  · intro h
    simp [resetDriver, h]
  · intro ⟨htimers, hflag⟩
    by_cases h : w.runningRef
    · have : w.intervalRef.isSome = true := by rw [← hflag]; exact h
      obtain ⟨i, hi⟩ := Option.isSome_iff_exists.mp this
      rw [hi] at htimers
      simp [resetDriver, clearHeldInterval, h, hi, htimers]
    · have : w.intervalRef.isSome = false := by
        rw [← hflag]; simpa using h
      have hi : w.intervalRef = none := by
        cases hx : w.intervalRef
        · rfl
        · rw [hx] at this; simp at this
      rw [hi] at htimers
      simp [resetDriver, h, htimers, hi]

/-- Witness for C10: resetting while stopped leaves the driver untouched;
resetting while running cancels the timer and clears the handle. -/
theorem reset_stops_driver_witness :
    resetDriver initialDriver = initialDriver ∧
    (resetDriver (run initialDriver)).activeTimers = [] :=
  ⟨(reset_stops_driver initialDriver).2.2.1 rfl,
   ((reset_stops_driver (run initialDriver)).2.2.2 (by decide)).1⟩

lemma lastN_length_le (n : Nat) (l : List α) : (lastN n l).length ≤ n := by
  simp [lastN]
  omega

lemma lastN_of_length_le (n : Nat) (l : List α) (h : l.length ≤ n) :
    lastN n l = l := by
  simp [lastN, Nat.sub_eq_zero_of_le h]

/-- On a non-zero step, one observation is exactly "append, then keep the
last `MAX_HISTORY` entries". -/
lemma observe_pos (hist : List HistoryEntry) (s : ObservedState)
    (hs : s.step ≠ 0) :
    observe hist s = lastN MAX_HISTORY (hist ++ [entryOf s]) := by
  rw [observe, if_neg hs]
  by_cases h : MAX_HISTORY < (hist ++ [entryOf s]).length
  · simp only [if_pos h, lastN]
  · simp only [if_neg h, lastN]
    push_neg at h
    rw [Nat.sub_eq_zero_of_le h, List.drop_zero]

lemma lastN_append_lastN (n : Nat) (l m : List α) :
    lastN n (lastN n l ++ m) = lastN n (l ++ m) := by
  unfold lastN
  have h1 : l.drop (l.length - n) ++ m = (l ++ m).drop (l.length - n) := by
    rw [List.drop_append_eq_append_drop,
      Nat.sub_eq_zero_of_le (Nat.sub_le _ _), List.drop_zero]
  rw [h1, List.drop_drop]
  congr 1
  simp only [List.length_drop, List.length_append]
  omega

/-- Folding observations of non-zero steps over a window of length at most
`MAX_HISTORY` keeps exactly the last `MAX_HISTORY` of everything seen. -/
lemma foldl_observe (states : List ObservedState) :
    ∀ hist : List HistoryEntry, hist.length ≤ MAX_HISTORY →
    (∀ s ∈ states, s.step ≠ 0) →
    states.foldl observe hist = lastN MAX_HISTORY (hist ++ states.map entryOf) := by
  induction states with
  | nil =>
      intro hist hl _
      simp [lastN_of_length_le MAX_HISTORY hist hl]
  | cons s rest ih =>
      intro hist hl hnz
      rw [List.foldl_cons, observe_pos hist s (hnz s (List.mem_cons_self s rest)),
        ih _ (lastN_length_le _ _) (fun t ht => hnz t (List.mem_cons_of_mem s ht)),
        lastN_append_lastN]
      simp [List.append_assoc]

/-- C3: feeding 105 successive snapshots with non-zero, pairwise-distinct
steps into the empty aggregator ends with exactly 100 entries: the oldest 5
are evicted and the retained entries are the most recent 100 in arrival
order. -/
theorem history_window_eviction (states : List ObservedState)
    (hlen : states.length = 105) (hnz : ∀ s ∈ states, s.step ≠ 0)
    (_hdist : states.Pairwise (fun a b => a.step ≠ b.step)) :
    (states.foldl observe []).length = 100 ∧
    states.foldl observe [] = (states.map entryOf).drop 5 := by
  have hf := foldl_observe states [] (by simp [MAX_HISTORY]) hnz
  rw [List.nil_append] at hf
  have hml : (states.map entryOf).length = 105 := by
    rw [List.length_map, hlen]
  have hdrop : lastN MAX_HISTORY (states.map entryOf) =
      (states.map entryOf).drop 5 := by
    rw [lastN, hml]
    rfl
  refine ⟨?_, by rw [hf, hdrop]⟩
  rw [hf, hdrop, List.length_drop, hml]

/-- Concrete input for the C3 witness: 105 observed states with steps
1 through 105. -/
def wStates : List ObservedState :=
  (List.range 105).map fun i =>
    { step := i + 1, mempool_size := 0, avg_fee := 0, blocks_mined := 0,
      hashrate := 0, difficulty := 0 }

/-- Witness for C3 at the concrete 105-snapshot sequence. -/
theorem history_window_eviction_witness :
    (wStates.foldl observe []).length = 100 ∧
    wStates.foldl observe [] = (wStates.map entryOf).drop 5 :=
  history_window_eviction wStates (by decide) (by decide) (by decide)

end BitcoinABM
